import Mathlib

/-!
Verification of the blog application in src/main.py.

The application is a Flask blog with three database tables (blog_posts,
user, comments), session-based authentication via flask_login, and a
handful of route handlers.  Each handler is embedded as a pure function
from the database state, the session state and the request data to a
result record holding the HTTP response, the new database, the new
session and the number of db.session.commit() calls performed.
-/

/-- A row of the blog_posts table (class BlogPost in main.py).
The author_id column is a nullable foreign key into user.id. -/
structure BlogPostRow where
  id : Nat
  author_id : Option Nat
  title : String
  subtitle : String
  date : String
  body : String
  img_url : String
deriving DecidableEq, Repr

/-- A row of the user table (class User in main.py). -/
structure UserRow where
  id : Nat
  email : String
  password : String
  name : String
deriving DecidableEq, Repr

/-- A row of the comments table (class Comment in main.py).
Both author_id and blogpost_id are nullable foreign keys. -/
structure CommentRow where
  id : Nat
  author_id : Option Nat
  text : String
  blogpost_id : Option Nat
deriving DecidableEq, Repr

/-- The database: the three tables declared in main.py. -/
structure Database where
  blog_posts : List BlogPostRow
  users : List UserRow
  comments : List CommentRow
deriving DecidableEq, Repr

/-- The flask_login session state: either logged in as the user with the
given id, or not logged in. -/
abbrev Session := Option Nat

/-- current_user.is_authenticated for a session. -/
def is_authenticated (s : Session) : Bool := s.isSome

/-- An HTTP response as produced by the handlers: a rendered template
(carrying the data passed to render_template), a redirect, an abort with
a status code, or an unhandled Python exception escaping the handler. -/
inductive Response where
  | render (template : String) (all_posts : List BlogPostRow)
      (post : Option BlogPostRow) (logged_in : Bool)
  | redirect (target : String)
  | abort (code : Nat)
  | pyError (msg : String)
deriving DecidableEq, Repr

/-- The outcome of running one handler on one request. -/
structure HandlerResult where
  response : Response
  db : Database
  session : Session
  commits : Nat
deriving DecidableEq, Repr

/-- Modelled from the spec: werkzeug password hashing is library glue not
contained in the repository.  This is a computable stand-in for the
PBKDF2-SHA256 digest, injective in the password for a fixed salt. -/
def pbkdf2_sha256 (password salt : String) : String :=
  salt ++ "|" ++ password

/-- Modelled from the spec: werkzeug generate_password_hash with
method pbkdf2:sha256.  The stored string records the method, the salt and
the digest, as the real library does. -/
def generate_password_hash (password salt : String) : String :=
  "pbkdf2:sha256$" ++ salt ++ "$" ++ pbkdf2_sha256 password salt

/-- Modelled from the spec: werkzeug check_password_hash parses the stored
string and recomputes the digest of the candidate password. -/
def check_password_hash (pwhash password : String) : Bool :=
  match pwhash.splitOn "$" with
  | [m, salt, digest] => m == "pbkdf2:sha256" && pbkdf2_sha256 password salt == digest
  | _ => false

/-- Data carried by RegisterForm; valid is the result of
form.validate_on_submit(). -/
structure RegisterFormData where
  valid : Bool
  email : String
  password : String
  name : String
deriving DecidableEq, Repr

/-- Data carried by LoginForm. -/
structure LoginFormData where
  valid : Bool
  email : String
  password : String
deriving DecidableEq, Repr

/-- Data carried by CommentForm. -/
structure CommentFormData where
  valid : Bool
  body : String
deriving DecidableEq, Repr

/-- Data carried by CreatePostForm. -/
structure CreatePostFormData where
  valid : Bool
  title : String
  subtitle : String
  body : String
  img_url : String
  author : String
deriving DecidableEq, Repr

/-- Route / in main.py: list every row of blog_posts. -/
def get_all_posts (db : Database) (s : Session) : HandlerResult :=
  { response := .render "index.html" db.blog_posts none (is_authenticated s)
  , db := db, session := s, commits := 0 }

/-- Route /register in main.py.  The salt drawn by the library and the
primary key assigned by the database are passed as parameters. -/
def register (db : Database) (s : Session) (form : RegisterFormData)
    (salt : String) (newId : Nat) : HandlerResult :=
  if form.valid then
    if (db.users.find? (fun u => u.email == form.email)).isSome then
      { response := .redirect "login", db := db, session := s, commits := 0 }
    else
      let new_user : UserRow :=
        { id := newId, email := form.email
        , password := generate_password_hash form.password salt
        , name := form.name }
      { response := .redirect "get_all_posts"
      , db := { db with users := db.users ++ [new_user] }
      , session := some newId, commits := 1 }
  else
    { response := .render "register.html" [] none (is_authenticated s)
    , db := db, session := s, commits := 0 }

/-- Route /login in main.py.  When no user carries the submitted email,
user.password raises AttributeError, which the handler catches and turns
into a redirect back to the login page. -/
def login (db : Database) (s : Session) (form : LoginFormData) : HandlerResult :=
  if form.valid then
    match db.users.find? (fun u => u.email == form.email) with
    | some user =>
      if check_password_hash user.password form.password then
        { response := .redirect "get_all_posts", db := db
        , session := some user.id, commits := 0 }
      else
        { response := .redirect "login", db := db, session := s, commits := 0 }
    | none =>
      { response := .redirect "login", db := db, session := s, commits := 0 }
  else
    { response := .render "login.html" [] none (is_authenticated s)
    , db := db, session := s, commits := 0 }

/-- Route /logout in main.py. -/
def logout (db : Database) (s : Session) : HandlerResult :=
  { response := .redirect "get_all_posts", db := db, session := none, commits := 0 }

/-- Route /post/<int:post_id> in main.py.  On a valid comment submission
by an authenticated user a Comment row is inserted whose blogpost is the
looked-up post (so blogpost_id is NULL when the lookup found nothing). -/
def show_post (db : Database) (s : Session) (post_id : Nat)
    (form : CommentFormData) (newCommentId : Nat) : HandlerResult :=
  let requested_post := db.blog_posts.find? (fun p => p.id == post_id)
  if form.valid then
    match s with
    | some uid =>
      let new_comment : CommentRow :=
        { id := newCommentId, author_id := some uid
        , text := form.body
        , blogpost_id := requested_post.map (fun p => p.id) }
      { response := .render "post.html" [] requested_post true
      , db := { db with comments := db.comments ++ [new_comment] }
      , session := s, commits := 1 }
    | none =>
      { response := .redirect "login", db := db, session := s, commits := 0 }
  else
    { response := .render "post.html" [] requested_post (is_authenticated s)
    , db := db, session := s, commits := 0 }

/-- Route /about in main.py. -/
def about (db : Database) (s : Session) : HandlerResult :=
  { response := .render "about.html" [] none (is_authenticated s)
  , db := db, session := s, commits := 0 }

/-- Route /contact in main.py. -/
def contact (db : Database) (s : Session) : HandlerResult :=
  { response := .render "contact.html" [] none (is_authenticated s)
  , db := db, session := s, commits := 0 }

/-- The login_required decorator of flask_login: with no login_view
configured, an unauthenticated request is rejected with 401. -/
def login_required_abort : Response := .abort 401

/-- Route /new-post in main.py, wrapped by login_required and admin_only. -/
def add_new_post (db : Database) (s : Session) (form : CreatePostFormData)
    (today : String) (newPostId : Nat) : HandlerResult :=
  match s with
  | none =>
    { response := login_required_abort, db := db, session := s, commits := 0 }
  | some uid =>
    if uid != 1 then
      { response := .abort 403, db := db, session := s, commits := 0 }
    else if form.valid then
      let new_post : BlogPostRow :=
        { id := newPostId, author_id := some uid
        , title := form.title, subtitle := form.subtitle
        , date := today, body := form.body, img_url := form.img_url }
      { response := .redirect "get_all_posts"
      , db := { db with blog_posts := db.blog_posts ++ [new_post] }
      , session := s, commits := 1 }
    else
      { response := .render "make-post.html" [] none true
      , db := db, session := s, commits := 0 }

/-- Route /edit-post/<int:post_id> in main.py.  The handler dereferences
post.title and post.author.name before checking the form, so a missing
post or a missing author raises AttributeError. -/
def edit_post (db : Database) (s : Session) (post_id : Nat)
    (form : CreatePostFormData) : HandlerResult :=
  match s with
  | none =>
    { response := login_required_abort, db := db, session := s, commits := 0 }
  | some uid =>
    if uid != 1 then
      { response := .abort 403, db := db, session := s, commits := 0 }
    else
      match db.blog_posts.find? (fun p => p.id == post_id) with
      | none =>
        { response := .pyError "AttributeError: NoneType has no attribute title"
        , db := db, session := s, commits := 0 }
      | some post =>
        match post.author_id.bind (fun aid => db.users.find? (fun u => u.id == aid)) with
        | none =>
          { response := .pyError "AttributeError: NoneType has no attribute name"
          , db := db, session := s, commits := 0 }
        | some author =>
          if form.valid then
            { response := .redirect ("show_post/" ++ toString post.id)
            , db :=
              { db with
                blog_posts := db.blog_posts.map (fun p =>
                  if p.id == post_id then
                    { p with
                        title := form.title
                        subtitle := form.subtitle
                        img_url := form.img_url
                        body := form.body }
                  else p)
              , users := db.users.map (fun u =>
                  if u.id == author.id then { u with name := form.author } else u) }
            , session := s, commits := 1 }
          else
            { response := .render "make-post.html" [] none true
            , db := db, session := s, commits := 0 }

/-- Route /delete/<int:post_id> in main.py.  Deleting the result of a
failed lookup passes None to db.session.delete, which raises. -/
def delete_post (db : Database) (s : Session) (post_id : Nat) : HandlerResult :=
  match s with
  | none =>
    { response := login_required_abort, db := db, session := s, commits := 0 }
  | some uid =>
    if uid != 1 then
      { response := .abort 403, db := db, session := s, commits := 0 }
    else
      match db.blog_posts.find? (fun p => p.id == post_id) with
      | none =>
        { response := .pyError "UnmappedInstanceError: None is not mapped"
        , db := db, session := s, commits := 0 }
      | some _ =>
        { response := .redirect "get_all_posts"
        , db := { db with blog_posts := db.blog_posts.eraseP (fun p => p.id == post_id) }
        , session := s, commits := 1 }

/-! Sample rows used by the witness theorems. -/

/-- Sample admin user (id 1). -/
def userA : UserRow :=
  { id := 1, email := "admin@blog.io", password := "h1", name := "Admin" }

/-- Sample ordinary user (id 2). -/
def userB : UserRow :=
  { id := 2, email := "bob@blog.io", password := "h2", name := "Bob" }

/-- Sample blog post authored by the admin. -/
def postA : BlogPostRow :=
  { id := 1, author_id := some 1, title := "T", subtitle := "S"
  , date := "January 01, 2026", body := "B", img_url := "U" }

/-- Sample database with one post and two users. -/
def db0 : Database := { blog_posts := [postA], users := [userA, userB], comments := [] }

/-- Sample create-post form data. -/
def pformW : CreatePostFormData :=
  { valid := true, title := "NT", subtitle := "NS", body := "NB"
  , img_url := "NU", author := "NA" }

/-- Sample comment form data. -/
def cformW : CommentFormData := { valid := true, body := "nice post" }

example : (delete_post db0 (some 2) 1).response = Response.abort 403 := by decide
example : (add_new_post db0 none pformW "d" 9).response = Response.abort 401 := by decide

/-- C1: add_new_post, edit_post and delete_post reject an unauthenticated
requester through the login requirement and reject every authenticated
user other than user 1 with a 403 abort, leaving the database (in
particular blog_posts) unchanged in all those cases. -/
theorem admin_routes_guard (db : Database) (form : CreatePostFormData)
    (today : String) (npid pid uid : Nat) (h : uid ≠ 1) :
    ((add_new_post db none form today npid).response = login_required_abort ∧
      (add_new_post db none form today npid).db = db) ∧
    ((edit_post db none pid form).response = login_required_abort ∧
      (edit_post db none pid form).db = db) ∧
    ((delete_post db none pid).response = login_required_abort ∧
      (delete_post db none pid).db = db) ∧
    ((add_new_post db (some uid) form today npid).response = .abort 403 ∧
      (add_new_post db (some uid) form today npid).db = db) ∧
    ((edit_post db (some uid) pid form).response = .abort 403 ∧
      (edit_post db (some uid) pid form).db = db) ∧
    ((delete_post db (some uid) pid).response = .abort 403 ∧
      (delete_post db (some uid) pid).db = db) := by
  simp [add_new_post, edit_post, delete_post, h, bne_iff_ne]

/-- Witness for admin_routes_guard at user id 2 on the sample database. -/
theorem admin_routes_guard_witness :
    (2 : Nat) ≠ 1 ∧
    ((delete_post db0 (some 2) 1).response = .abort 403 ∧
      (delete_post db0 (some 2) 1).db = db0) :=
  ⟨by decide, (admin_routes_guard db0 pformW "d" 9 1 2 (by decide)).2.2.2.2.2⟩

/-- C5: get_all_posts hands the complete blog_posts table to the template
for every session state, and a GET of show_post (no submitted form)
renders the requested post with the database untouched, for
authenticated and unauthenticated visitors alike. -/
theorem reading_is_open (db : Database) (s : Session) (pid ncid : Nat)
    (form : CommentFormData) (hget : form.valid = false) :
    (get_all_posts db s).response =
      .render "index.html" db.blog_posts none (is_authenticated s) ∧
    (get_all_posts db s).db = db ∧
    (show_post db s pid form ncid).response =
      .render "post.html" [] (db.blog_posts.find? (fun p => p.id == pid))
        (is_authenticated s) ∧
    (show_post db s pid form ncid).db = db := by
  simp [get_all_posts, show_post, hget]

/-- Witness for reading_is_open: an anonymous GET of post 1. -/
theorem reading_is_open_witness :
    ({ valid := false, body := "" } : CommentFormData).valid = false ∧
    (show_post db0 none 1 { valid := false, body := "" } 5).db = db0 :=
  ⟨by decide, (reading_is_open db0 none 1 5 { valid := false, body := "" } (by decide)).2.2.2⟩

/-- C2: a valid comment submission by an authenticated user appends
exactly one Comment row carrying the submitted body, the current user as
author and the looked-up post as blogpost, touching no other table; an
unauthenticated valid submission changes nothing and redirects to login. -/
theorem comment_submission (db : Database) (pid ncid uid : Nat)
    (form : CommentFormData) (hform : form.valid = true) :
    ((show_post db (some uid) pid form ncid).db.comments =
        db.comments ++
          [{ id := ncid, author_id := some uid, text := form.body
           , blogpost_id :=
               (db.blog_posts.find? (fun p => p.id == pid)).map (fun p => p.id) }] ∧
      (show_post db (some uid) pid form ncid).db.blog_posts = db.blog_posts ∧
      (show_post db (some uid) pid form ncid).db.users = db.users) ∧
    ((show_post db none pid form ncid).db = db ∧
      (show_post db none pid form ncid).response = .redirect "login") := by
  simp [show_post, hform]

/-- Witness for comment_submission: user 2 comments on post 1 of db0. -/
theorem comment_submission_witness :
    cformW.valid = true ∧
    (show_post db0 (some 2) 1 cformW 3).db.comments =
      [{ id := 3, author_id := some 2, text := "nice post", blogpost_id := some 1 }] :=
  ⟨by decide, by
    have h := (comment_submission db0 1 3 2 cformW (by decide)).1.1
    simpa using h⟩

/-- The stored hash string is strictly longer than the plaintext, hence
never equal to it. -/
theorem generate_password_hash_ne_plaintext (pw salt : String) :
    generate_password_hash pw salt ≠ pw := by
  intro h
  have hl := congrArg String.length h
  simp [generate_password_hash, pbkdf2_sha256, String.length_append,
    show ("pbkdf2:sha256$" : String).length = 14 from rfl,
    show ("$" : String).length = 1 from rfl,
    show ("|" : String).length = 1 from rfl] at hl
  omega

/-- Sample registration form for a fresh email. -/
def rformW : RegisterFormData :=
  { valid := true, email := "carol@x", password := "pw", name := "Carol" }

/-- Sample login form for the admin email. -/
def lformW : LoginFormData :=
  { valid := true, email := "admin@blog.io", password := "p" }

/-- C3: successful registration stores the salted pbkdf2:sha256 hash of
the submitted password and never the plaintext, and a login attempt with
a registered email logs the user in exactly when the submitted password
verifies against the stored hash; on a mismatch the session stays logged
out and the response redirects back to login. -/
theorem password_storage_and_login
    (db : Database) (s : Session) (rform : RegisterFormData) (salt : String) (nid : Nat)
    (lform : LoginFormData) (user : UserRow)
    (hrv : rform.valid = true)
    (hfresh : db.users.find? (fun u => u.email == rform.email) = none)
    (hlv : lform.valid = true)
    (hluser : db.users.find? (fun u => u.email == lform.email) = some user) :
    ((register db s rform salt nid).db.users =
        db.users ++
          [{ id := nid, email := rform.email
           , password := generate_password_hash rform.password salt
           , name := rform.name }] ∧
      (∃ rest, generate_password_hash rform.password salt = "pbkdf2:sha256$" ++ rest) ∧
      generate_password_hash rform.password salt ≠ rform.password) ∧
    ((login db none lform).session = some user.id ↔
      check_password_hash user.password lform.password = true) ∧
    (check_password_hash user.password lform.password = false →
      (login db none lform).session = none ∧
      (login db none lform).response = .redirect "login") := by
  refine ⟨⟨?_, ?_, generate_password_hash_ne_plaintext _ _⟩, ?_, ?_⟩
  · simp [register, hrv, hfresh]
  · exact ⟨salt ++ "$" ++ pbkdf2_sha256 rform.password salt,
      by simp [generate_password_hash, String.append_assoc]⟩
  · by_cases hc : check_password_hash user.password lform.password <;>
      simp [login, hlv, hluser, hc]
  · intro hc
    simp [login, hlv, hluser, hc]

/-- Witness for password_storage_and_login on the sample database. -/
theorem password_storage_and_login_witness :
    rformW.valid = true ∧
    db0.users.find? (fun u => u.email == rformW.email) = none ∧
    lformW.valid = true ∧
    db0.users.find? (fun u => u.email == lformW.email) = some userA ∧
    generate_password_hash rformW.password "SALTSALT" ≠ rformW.password ∧
    ((login db0 none lformW).session = some userA.id ↔
      check_password_hash userA.password lformW.password = true) :=
  ⟨by decide, by decide, by decide, by decide,
    (password_storage_and_login db0 none rformW "SALTSALT" 3 lformW userA
      (by decide) (by decide) (by decide) (by decide)).1.2.2,
    (password_storage_and_login db0 none rformW "SALTSALT" 3 lformW userA
      (by decide) (by decide) (by decide) (by decide)).2.1⟩

/-- C4: every handler commits at most once per request, a handler that
commits zero times leaves the database unchanged, and each guard failure
(invalid form, duplicate email, unauthenticated commenter, non-admin
requester) leaves the database unchanged. -/
theorem single_commit_per_request (db : Database) (s : Session)
    (rform : RegisterFormData) (lform : LoginFormData) (cform : CommentFormData)
    (pform : CreatePostFormData) (salt today : String) (nid ncid npid pid : Nat) :
    ((get_all_posts db s).commits ≤ 1 ∧
      ((get_all_posts db s).commits = 0 → (get_all_posts db s).db = db)) ∧
    ((register db s rform salt nid).commits ≤ 1 ∧
      ((register db s rform salt nid).commits = 0 → (register db s rform salt nid).db = db)) ∧
    ((login db s lform).commits ≤ 1 ∧
      ((login db s lform).commits = 0 → (login db s lform).db = db)) ∧
    ((logout db s).commits ≤ 1 ∧
      ((logout db s).commits = 0 → (logout db s).db = db)) ∧
    ((show_post db s pid cform ncid).commits ≤ 1 ∧
      ((show_post db s pid cform ncid).commits = 0 → (show_post db s pid cform ncid).db = db)) ∧
    ((about db s).commits ≤ 1 ∧ ((about db s).commits = 0 → (about db s).db = db)) ∧
    ((contact db s).commits ≤ 1 ∧ ((contact db s).commits = 0 → (contact db s).db = db)) ∧
    ((add_new_post db s pform today npid).commits ≤ 1 ∧
      ((add_new_post db s pform today npid).commits = 0 →
        (add_new_post db s pform today npid).db = db)) ∧
    ((edit_post db s pid pform).commits ≤ 1 ∧
      ((edit_post db s pid pform).commits = 0 → (edit_post db s pid pform).db = db)) ∧
    ((delete_post db s pid).commits ≤ 1 ∧
      ((delete_post db s pid).commits = 0 → (delete_post db s pid).db = db)) ∧
    (rform.valid = false → (register db s rform salt nid).db = db) ∧
    ((db.users.find? (fun u => u.email == rform.email)).isSome →
      (register db s rform salt nid).db = db) ∧
    ((show_post db none pid cform ncid).db = db) ∧
    (pform.valid = false → (add_new_post db (some 1) pform today npid).db = db) ∧
    (∀ uid, uid ≠ 1 →
      (add_new_post db (some uid) pform today npid).db = db ∧
      (edit_post db (some uid) pid pform).db = db ∧
      (delete_post db (some uid) pid).db = db) := by
  have guard3 : ∀ uid, uid ≠ 1 →
      (add_new_post db (some uid) pform today npid).db = db ∧
      (edit_post db (some uid) pid pform).db = db ∧
      (delete_post db (some uid) pid).db = db := by
    intro uid h
    simp [add_new_post, edit_post, delete_post, h, bne_iff_ne]
  refine ⟨⟨?_, ?_⟩, ⟨?_, ?_⟩, ⟨?_, ?_⟩, ⟨?_, ?_⟩, ⟨?_, ?_⟩, ⟨?_, ?_⟩, ⟨?_, ?_⟩,
    ⟨?_, ?_⟩, ⟨?_, ?_⟩, ⟨?_, ?_⟩, ?_, ?_, ?_, ?_, guard3⟩ <;>
    simp only [get_all_posts, register, login, logout, show_post, about, contact,
      add_new_post, edit_post, delete_post] <;>
    (repeat' split) <;>
    (first | rfl | omega | simp_all | decide)

/-- Witness for single_commit_per_request: an invalid registration and a
non-admin delete leave the sample database unchanged. -/
theorem single_commit_per_request_witness :
    ({ valid := false, email := "e", password := "p", name := "n" } : RegisterFormData).valid = false ∧
    (register db0 none { valid := false, email := "e", password := "p", name := "n" } "S" 9).db = db0 ∧
    (2 : Nat) ≠ 1 ∧
    (delete_post db0 (some 2) 1).db = db0 :=
  ⟨rfl,
    (single_commit_per_request db0 none
      { valid := false, email := "e", password := "p", name := "n" }
      lformW cformW pformW "S" "d" 9 4 8 1).2.2.2.2.2.2.2.2.2.2.1 rfl,
    by decide,
    ((single_commit_per_request db0 none
      { valid := false, email := "e", password := "p", name := "n" }
      lformW cformW pformW "S" "d" 9 4 8 1).2.2.2.2.2.2.2.2.2.2.2.2.2.2 2 (by decide)).2.2⟩

/-- C7: the session state is an Option of a user id, no handler other
than register, login and logout changes it, logout clears it from every
prior state, and register and login set it exactly on their success
paths. -/
theorem session_transitions (db : Database) (s : Session)
    (rform : RegisterFormData) (lform : LoginFormData) (cform : CommentFormData)
    (pform : CreatePostFormData) (salt today : String) (nid ncid npid pid : Nat) :
    (get_all_posts db s).session = s ∧
    (about db s).session = s ∧
    (contact db s).session = s ∧
    (show_post db s pid cform ncid).session = s ∧
    (add_new_post db s pform today npid).session = s ∧
    (edit_post db s pid pform).session = s ∧
    (delete_post db s pid).session = s ∧
    (logout db s).session = none ∧
    (rform.valid = true → db.users.find? (fun u => u.email == rform.email) = none →
      (register db s rform salt nid).session = some nid) ∧
    (rform.valid = false → (register db s rform salt nid).session = s) ∧
    ((db.users.find? (fun u => u.email == rform.email)).isSome →
      (register db s rform salt nid).session = s) ∧
    (∀ user, lform.valid = true →
      db.users.find? (fun u => u.email == lform.email) = some user →
      check_password_hash user.password lform.password = true →
      (login db s lform).session = some user.id) ∧
    (∀ user, lform.valid = true →
      db.users.find? (fun u => u.email == lform.email) = some user →
      check_password_hash user.password lform.password = false →
      (login db s lform).session = s) ∧
    (db.users.find? (fun u => u.email == lform.email) = none →
      (login db s lform).session = s) ∧
    (lform.valid = false → (login db s lform).session = s) := by
  refine ⟨rfl, rfl, rfl, ?_, ?_, ?_, ?_, rfl, ?_, ?_, ?_, ?_, ?_, ?_, ?_⟩
  · simp only [show_post]
    (repeat' split) <;> rfl
  · simp only [add_new_post]
    (repeat' split) <;> rfl
  · simp only [edit_post]
    (repeat' split) <;> rfl
  · simp only [delete_post]
    (repeat' split) <;> rfl
  · intro h1 h2
    simp [register, h1, h2]
  · intro h1
    simp [register, h1]
  · intro h1
    unfold register
    (repeat' split) <;> simp_all
  · intro user h1 h2 h3
    simp [login, h1, h2, h3]
  · intro user h1 h2 h3
    simp [login, h1, h2, h3]
  · intro h1
    unfold login
    (repeat' split) <;> simp_all
  · intro h1
    simp [login, h1]

/-- Witness for session_transitions: logout clears the session and a
successful registration logs the new user in. -/
theorem session_transitions_witness :
    rformW.valid = true ∧
    db0.users.find? (fun u => u.email == rformW.email) = none ∧
    (logout db0 (some 2)).session = none ∧
    (register db0 (some 2) rformW "S" 3).session = some 3 :=
  ⟨by decide, by decide,
    (session_transitions db0 (some 2) rformW lformW cformW pformW "S" "d" 3 4 5 1).2.2.2.2.2.2.2.1,
    (session_transitions db0 (some 2) rformW lformW cformW pformW "S" "d" 3 4 5 1).2.2.2.2.2.2.2.2.1
      rfl (by decide)⟩

/-- C8: a successful admin edit of an existing post rewrites only the
title, subtitle, img_url and body of that post and the name of its
author; ids, dates, author links, all other rows and the whole comments
table are untouched. -/
theorem edit_post_frame (db : Database) (pid : Nat) (form : CreatePostFormData)
    (post : BlogPostRow) (author : UserRow)
    (hpost : db.blog_posts.find? (fun p => p.id == pid) = some post)
    (hauthor : post.author_id.bind (fun aid => db.users.find? (fun u => u.id == aid)) = some author)
    (hvalid : form.valid = true) :
    (edit_post db (some 1) pid form).response = .redirect ("show_post/" ++ toString post.id) ∧
    (edit_post db (some 1) pid form).db.comments = db.comments ∧
    (edit_post db (some 1) pid form).db.blog_posts.length = db.blog_posts.length ∧
    (∀ p ∈ db.blog_posts, p.id ≠ pid → p ∈ (edit_post db (some 1) pid form).db.blog_posts) ∧
    (∀ p' ∈ (edit_post db (some 1) pid form).db.blog_posts, ∃ p ∈ db.blog_posts,
      p'.id = p.id ∧ p'.date = p.date ∧ p'.author_id = p.author_id ∧
      (p.id ≠ pid → p' = p) ∧
      (p.id = pid → p'.title = form.title ∧ p'.subtitle = form.subtitle ∧
        p'.img_url = form.img_url ∧ p'.body = form.body)) ∧
    (∀ u ∈ db.users, u.id ≠ author.id → u ∈ (edit_post db (some 1) pid form).db.users) ∧
    (∀ u' ∈ (edit_post db (some 1) pid form).db.users, ∃ u ∈ db.users,
      u'.id = u.id ∧ u'.email = u.email ∧ u'.password = u.password ∧
      (u.id ≠ author.id → u' = u) ∧
      (u.id = author.id → u'.name = form.author)) := by
  have hE : edit_post db (some 1) pid form =
      { response := .redirect ("show_post/" ++ toString post.id)
      , db :=
        { db with
          blog_posts := db.blog_posts.map (fun p =>
            if p.id == pid then
              { p with
                  title := form.title
                  subtitle := form.subtitle
                  img_url := form.img_url
                  body := form.body }
            else p)
        , users := db.users.map (fun u =>
            if u.id == author.id then { u with name := form.author } else u) }
      , session := some 1, commits := 1 } := by
    simp [edit_post, hpost, hauthor, hvalid]
  rw [hE]
  refine ⟨rfl, rfl, by simp, ?_, ?_, ?_, ?_⟩
  · intro p hp hne
    refine List.mem_map.2 ⟨p, hp, ?_⟩
    simp [hne]
  · intro p' hp'
    obtain ⟨p, hp, hpe⟩ := List.mem_map.1 hp'
    refine ⟨p, hp, ?_⟩
    subst hpe
    by_cases hc : p.id = pid <;> simp [hc]
  · intro u hu hne
    refine List.mem_map.2 ⟨u, hu, ?_⟩
    simp [hne]
  · intro u' hu'
    obtain ⟨u, hu, hue⟩ := List.mem_map.1 hu'
    refine ⟨u, hu, ?_⟩
    subst hue
    by_cases hc : u.id = author.id <;> simp [hc]

/-- Witness for edit_post_frame: the admin edits post 1 of db0. -/
theorem edit_post_frame_witness :
    db0.blog_posts.find? (fun p => p.id == 1) = some postA ∧
    postA.author_id.bind (fun aid => db0.users.find? (fun u => u.id == aid)) = some userA ∧
    pformW.valid = true ∧
    (edit_post db0 (some 1) 1 pformW).db.comments = db0.comments ∧
    (edit_post db0 (some 1) 1 pformW).response = .redirect ("show_post/" ++ toString postA.id) :=
  ⟨by decide, by decide, by decide,
    (edit_post_frame db0 1 pformW postA userA (by decide) (by decide) (by decide)).2.1,
    (edit_post_frame db0 1 pformW postA userA (by decide) (by decide) (by decide)).1⟩

/-- Renaming one user touches no email: mapping a name update over the
user table leaves the email column unchanged. -/
theorem map_email_update_name (users : List UserRow) (aid : Nat) (nm : String) :
    (users.map (fun u => if u.id == aid then { u with name := nm } else u)).map
        (fun u => u.email) =
      users.map (fun u => u.email) := by
  rw [List.map_map]
  refine List.map_congr_left ?_
  intro u hu
  by_cases hc : (u.id == aid) = true <;> simp [Function.comp, hc]

/-- C9: registering with an email already present changes nothing and
redirects to login, register preserves distinctness of the email column,
and no other handler ever alters the email column. -/
theorem register_duplicate_email (db : Database) (s : Session)
    (rform : RegisterFormData) (salt : String) (nid : Nat) :
    (rform.valid = true → (∃ u ∈ db.users, u.email = rform.email) →
      (register db s rform salt nid).db = db ∧
      (register db s rform salt nid).response = .redirect "login") ∧
    ((db.users.map (fun u => u.email)).Nodup →
      ((register db s rform salt nid).db.users.map (fun u => u.email)).Nodup) ∧
    (∀ lform pid cform ncid pform today npid,
      (login db s lform).db.users = db.users ∧
      (logout db s).db.users = db.users ∧
      (show_post db s pid cform ncid).db.users = db.users ∧
      (add_new_post db s pform today npid).db.users = db.users ∧
      (delete_post db s pid).db.users = db.users ∧
      (edit_post db s pid pform).db.users.map (fun u => u.email) =
        db.users.map (fun u => u.email)) := by
  refine ⟨?_, ?_, ?_⟩
  · intro hv ⟨u, hu, he⟩
    have hs : (db.users.find? (fun x => x.email == rform.email)).isSome := by
      rcases hf : db.users.find? (fun x => x.email == rform.email) with _ | v
      · exact absurd (by simp [he]) (List.find?_eq_none.1 hf u hu)
      · simp [hf]
    simp [register, hv, hs]
  · intro hnd
    rcases hbv : rform.valid with _ | _
    · simpa [register, hbv] using hnd
    · rcases hfs : db.users.find? (fun u => u.email == rform.email) with _ | u
      · have hall := List.find?_eq_none.1 hfs
        simp only [register, hbv, hfs, Option.isSome_none, if_true, if_false,
          Bool.false_eq_true, List.map_append]
        refine List.Nodup.append hnd (by simp) ?_
        intro a ha hb
        simp at hb
        obtain ⟨v, hv, hve⟩ := List.mem_map.1 ha
        exact hall v hv (by simp [hve, hb])
      · simpa [register, hbv, hfs] using hnd
  · intro lform pid cform ncid pform today npid
    refine ⟨?_, rfl, ?_, ?_, ?_, ?_⟩
    · simp only [login]
      (repeat' split) <;> rfl
    · simp only [show_post]
      (repeat' split) <;> rfl
    · simp only [add_new_post]
      (repeat' split) <;> rfl
    · simp only [delete_post]
      (repeat' split) <;> rfl
    · simp only [edit_post]
      (repeat' split) <;> (try rfl)
      exact map_email_update_name db.users _ _

/-- Witness for register_duplicate_email: re-registering the email of
userB leaves db0 unchanged and redirects to login. -/
theorem register_duplicate_email_witness :
    ({ valid := true, email := "bob@blog.io", password := "x", name := "B2" } : RegisterFormData).valid = true ∧
    (∃ u ∈ db0.users, u.email = "bob@blog.io") ∧
    (register db0 none { valid := true, email := "bob@blog.io", password := "x", name := "B2" } "S" 7).db = db0 ∧
    (register db0 none { valid := true, email := "bob@blog.io", password := "x", name := "B2" } "S" 7).response = .redirect "login" :=
  ⟨rfl, ⟨userB, by decide, rfl⟩,
    ((register_duplicate_email db0 none
        { valid := true, email := "bob@blog.io", password := "x", name := "B2" } "S" 7).1
      rfl ⟨userB, by decide, rfl⟩).1,
    ((register_duplicate_email db0 none
        { valid := true, email := "bob@blog.io", password := "x", name := "B2" } "S" 7).1
      rfl ⟨userB, by decide, rfl⟩).2⟩

/-- C10: for a post id matching no row, show_post still renders the page
with no post and an unchanged database, while the admin-invoked
delete_post and edit_post raise an unhandled Python error instead of a
clean 404. -/
theorem missing_post_behaviour (db : Database) (s : Session) (pid ncid : Nat)
    (cform : CommentFormData) (pform : CreatePostFormData)
    (hmiss : db.blog_posts.find? (fun p => p.id == pid) = none)
    (hget : cform.valid = false) :
    (show_post db s pid cform ncid).response =
      .render "post.html" [] none (is_authenticated s) ∧
    (show_post db s pid cform ncid).db = db ∧
    (edit_post db (some 1) pid pform).response =
      .pyError "AttributeError: NoneType has no attribute title" ∧
    (edit_post db (some 1) pid pform).db = db ∧
    (delete_post db (some 1) pid).response =
      .pyError "UnmappedInstanceError: None is not mapped" ∧
    (delete_post db (some 1) pid).db = db := by
  refine ⟨?_, ?_, ?_, ?_, ?_, ?_⟩ <;>
    simp [show_post, edit_post, delete_post, hmiss, hget]

/-- Witness for missing_post_behaviour: post id 42 is absent from db0. -/
theorem missing_post_behaviour_witness :
    db0.blog_posts.find? (fun p => p.id == 42) = none ∧
    ({ valid := false, body := "" } : CommentFormData).valid = false ∧
    (show_post db0 none 42 { valid := false, body := "" } 6).response =
      .render "post.html" [] none (is_authenticated none) ∧
    (delete_post db0 (some 1) 42).response =
      .pyError "UnmappedInstanceError: None is not mapped" :=
  ⟨by decide, rfl,
    (missing_post_behaviour db0 none 42 6 { valid := false, body := "" } pformW
      (by decide) rfl).1,
    (missing_post_behaviour db0 none 42 6 { valid := false, body := "" } pformW
      (by decide) rfl).2.2.2.2.1⟩

/-- Database refuting C6 as stated: one registered user and no posts. -/
def dbC6 : Database := { blog_posts := [], users := [userA], comments := [] }

/-- Counterexample to C6 as stated: a valid comment submitted by the
authenticated user 1 on the nonexistent post 5 inserts a Comment row
whose blogpost_id is NULL and therefore references no blog_posts row. -/
theorem referential_links_counterexample :
    (show_post dbC6 (some 1) 5 cformW 1).commits = 1 ∧
    (show_post dbC6 (some 1) 5 cformW 1).db.comments =
      [{ id := 1, author_id := some 1, text := "nice post", blogpost_id := none }] ∧
    (show_post dbC6 (some 1) 5 cformW 1).db.blog_posts = [] ∧
    ∀ c ∈ (show_post dbC6 (some 1) 5 cformW 1).db.comments,
      ¬∃ p ∈ (show_post dbC6 (some 1) 5 cformW 1).db.blog_posts,
        some p.id = c.blogpost_id := by
  decide

/-- C6 amended: a post inserted by add_new_post links its author_id to
the current admin user, and a comment inserted by show_post links its
author_id to the commenting user and its blogpost_id to the requested
post when that post exists, blogpost_id being NULL otherwise. -/
theorem referential_links_amended (db : Database) (uid pid ncid npid : Nat)
    (cform : CommentFormData) (pform : CreatePostFormData) (today : String)
    (hcv : cform.valid = true) (hpv : pform.valid = true)
    (huser : uid ∈ db.users.map (fun u => u.id))
    (hadmin : 1 ∈ db.users.map (fun u => u.id)) :
    ((show_post db (some uid) pid cform ncid).db.comments =
      db.comments ++
        [{ id := ncid, author_id := some uid, text := cform.body
         , blogpost_id :=
             (db.blog_posts.find? (fun p => p.id == pid)).map (fun p => p.id) }]) ∧
    (∃ u ∈ db.users, some u.id = (some uid : Option Nat)) ∧
    (∀ p, db.blog_posts.find? (fun q => q.id == pid) = some p → p ∈ db.blog_posts) ∧
    ((add_new_post db (some 1) pform today npid).db.blog_posts =
      db.blog_posts ++
        [{ id := npid, author_id := some 1, title := pform.title
         , subtitle := pform.subtitle, date := today, body := pform.body
         , img_url := pform.img_url }]) ∧
    (∃ u ∈ db.users, some u.id = (some 1 : Option Nat)) := by
  obtain ⟨u1, hu1, he1⟩ := List.mem_map.1 huser
  obtain ⟨u2, hu2, he2⟩ := List.mem_map.1 hadmin
  refine ⟨?_, ⟨u1, hu1, by simp [he1]⟩, ?_, ?_, ⟨u2, hu2, by simp [he2]⟩⟩
  · simp [show_post, hcv]
  · intro p hp
    exact List.mem_of_find?_eq_some hp
  · simp [add_new_post, hpv]

/-- Witness for referential_links_amended: user 2 comments on post 1 and
the admin creates a post, on the sample database. -/
theorem referential_links_amended_witness :
    cformW.valid = true ∧ pformW.valid = true ∧
    2 ∈ db0.users.map (fun u => u.id) ∧ 1 ∈ db0.users.map (fun u => u.id) ∧
    (show_post db0 (some 2) 1 cformW 9).db.comments =
      [{ id := 9, author_id := some 2, text := "nice post", blogpost_id := some 1 }] :=
  ⟨rfl, rfl, by decide, by decide, by
    have h := (referential_links_amended db0 2 1 9 8 cformW pformW "d"
      rfl rfl (by decide) (by decide)).1
    simpa using h⟩
